import Mathlib

/-!
Shallow embedding of `src/app.py` (store phone-number search app):
the credential pool (`get_current_api_key`, `switch_to_next_api_key`),
the search/extraction engine (`search_phone_number`), and the spreadsheet
row processing (`process_excel`).

The pool state mirrors `st.session_state.current_api_key_index` and
`st.session_state.failed_api_keys`; the global `API_KEYS` list is passed
explicitly as a parameter `keys`.
-/

namespace App

/-- The session state: `current_api_key_index` and `failed_api_keys`. -/
structure PoolState where
  currentIndex : Nat
  failedKeys : Finset Nat
deriving DecidableEq

/-- Embeds `get_current_api_key()` (src/app.py lines 43-59).  Returns the selected
key and the (possibly clamped) state: if `API_KEYS` is empty, `None`; if no
index is outside `failed_api_keys`, `None`; otherwise, after resetting
`current_api_key_index` to 0 when it is out of range, `API_KEYS[current_api_key_index]`. -/
def get_current_api_key (keys : List String) (st : PoolState) :
    Option String × PoolState :=
  if keys.isEmpty then (none, st)
  else
    let available := (List.range keys.length).filter (fun i => decide (i ∉ st.failedKeys))
    if available.isEmpty then (none, st)
    else
      let st' := if keys.length ≤ st.currentIndex then { st with currentIndex := 0 } else st
      (keys.get? st'.currentIndex, st')

/-- The `for i in range(len(API_KEYS))` loop body of `switch_to_next_api_key`
(src/app.py lines 67-71): the first `next_index = (current + 1 + i) % n`
not in the failed set, scanning the given list of loop counters in order. -/
def findNextIndex (n cur : Nat) (failed : Finset Nat) : List Nat → Option Nat
  | [] => none
  | i :: rest =>
    let next := (cur + 1 + i) % n
    if next ∉ failed then some next else findNextIndex n cur failed rest

/-- Embeds `switch_to_next_api_key()` (src/app.py lines 61-73): add the current
index to `failed_api_keys`, then scan forward cyclically from
`current_index + 1` for the first non-failed index; on success set
`current_api_key_index` to it and return `True`, otherwise return `False`. -/
def switch_to_next_api_key (keys : List String) (st : PoolState) :
    Bool × PoolState :=
  let failed := insert st.currentIndex st.failedKeys
  match findNextIndex keys.length st.currentIndex failed (List.range keys.length) with
  | some next => (true, ⟨next, failed⟩)
  | none => (false, ⟨st.currentIndex, failed⟩)

/-- Runs `k` successive calls of `switch_to_next_api_key`, keeping only the state. -/
def rotateN (keys : List String) : Nat → PoolState → PoolState
  | 0, st => st
  | k + 1, st => (switch_to_next_api_key keys (rotateN keys k st)).2

/-- An operation on the pool: a `get_current_api_key` call (which may clamp
the index) or a `switch_to_next_api_key` call. -/
inductive PoolOp where
  | getKey
  | rotateKey
deriving DecidableEq

/-- Apply one pool operation to the session state. -/
def applyOp (keys : List String) (st : PoolState) : PoolOp → PoolState
  | .getKey => (get_current_api_key keys st).2
  | .rotateKey => (switch_to_next_api_key keys st).2

/-- Run a sequence of pool operations from a state. -/
def runOps (keys : List String) : List PoolOp → PoolState → PoolState
  | [], st => st
  | op :: rest, st => runOps keys rest (applyOp keys st op)

/-- Every index of the key list is in the failed set (pool depleted). -/
def allExhausted (keys : List String) (st : PoolState) : Prop :=
  ∀ j < keys.length, j ∈ st.failedKeys

instance (keys : List String) (st : PoolState) : Decidable (allExhausted keys st) := by
  unfold allExhausted; infer_instance

/-! ## The phone-number regular expressions

The source matches snippets with `re.search` against the patterns
`\d{2,4}-\d{2,4}-\d{4}`, `\d{3}-\d{4}-\d{4}` and `\d{10,11}`
(src/app.py lines 148-156).  Each pattern is a sequence of bounded digit
runs separated by literal dashes; we embed exactly that fragment of the
regex language, with Python's leftmost greedy-with-backtracking `search`
semantics.  `\d` is modelled on the ASCII digit range (the inputs of
interest contain only ASCII digits). -/

/-- A token of the embedded regex fragment: a digit run `\d{m,M}`
or a literal dash. -/
inductive Tok where
  | digits (m M : Nat)
  | dash
deriving DecidableEq

/-- The greedy candidate repeat counts `[M, M-1, ..., m]` for `\d{m,M}`. -/
def candKs (m M : Nat) : List Nat :=
  (List.range (M + 1 - m)).map (fun i => M - i)

/-- Match a token sequence at the start of the character list, returning
the matched prefix; a digit run tries the largest repeat count first and
backtracks (Python `re` semantics). -/
def matchTokens : List Tok → List Char → Option (List Char)
  | [], _ => some []
  | Tok.dash :: _, [] => none
  | Tok.dash :: ts, c :: rest =>
    if c = '-' then (matchTokens ts rest).map (fun r => '-' :: r) else none
  | Tok.digits m M :: ts, s =>
    (candKs m M).findSome? (fun k =>
      if k ≤ s.length ∧ (s.take k).all Char.isDigit then
        (matchTokens ts (s.drop k)).map (fun r => s.take k ++ r)
      else none)

/-- Embeds `re.search`: try matching at each start position left to right and
return the first (leftmost) match. -/
def reSearch (toks : List Tok) : List Char → Option (List Char)
  | [] => matchTokens toks []
  | c :: rest =>
    match matchTokens toks (c :: rest) with
    | some m => some m
    | none => reSearch toks rest

/-- The `phone_patterns` list (src/app.py lines 148-152), in source order. -/
def phone_patterns : List (List Tok) :=
  [ [Tok.digits 2 4, Tok.dash, Tok.digits 2 4, Tok.dash, Tok.digits 4 4],
    [Tok.digits 3 3, Tok.dash, Tok.digits 4 4, Tok.dash, Tok.digits 4 4],
    [Tok.digits 10 11] ]

/-- The inner `for pattern in phone_patterns` loop (src/app.py lines 153-156):
the first pattern that matches anywhere in the snippet wins, and its
leftmost match is returned. -/
def snippetMatch (snippet : String) : Option String :=
  phone_patterns.findSome? (fun pat =>
    (reSearch pat snippet.toList).map (fun cs => String.mk cs))

/-! ## The search response payload -/

/-- The `knowledge_graph` entry of a SerpAPI response, restricted to the
field the code reads (`phone`, which may be absent). -/
structure KnowledgeGraph where
  phone : Option String
deriving DecidableEq

/-- One entry of `local_results` (the code reads only `phone`). -/
structure LocalResult where
  phone : Option String
deriving DecidableEq

/-- One entry of `organic_results`; the code reads `result.get("snippet", "")`. -/
structure OrganicResult where
  snippet : Option String
deriving DecidableEq

/-- The response dictionary `results = search.get_dict()`, restricted to the
keys the code reads; `none` models an absent key. -/
structure SearchResults where
  error : Option String
  knowledge_graph : Option KnowledgeGraph
  local_results : Option (List LocalResult)
  organic_results : Option (List OrganicResult)
deriving DecidableEq

/-- The knowledge-graph branch (src/app.py lines 131-134): value returned
when `knowledge_graph` is present and has a `phone` key. -/
def kgPhone (r : SearchResults) : Option String :=
  r.knowledge_graph.bind KnowledgeGraph.phone

/-- The local-pack branch (src/app.py lines 137-140): value returned when
`local_results` is present, non-empty, and its first entry has a `phone` key. -/
def localPhone (r : SearchResults) : Option String :=
  match r.local_results with
  | some (first :: _) => first.phone
  | _ => none

/-- The `for result in results["organic_results"][:3]` loop
(src/app.py lines 144-156): the first snippet that matches any pattern wins. -/
def findSnippetPhone : List OrganicResult → Option String
  | [] => none
  | o :: rest =>
    match snippetMatch (o.snippet.getD "") with
    | some m => some m
    | none => findSnippetPhone rest

/-- The organic-results branch (src/app.py lines 143-156): scan at most the
first 3 organic results. -/
def organicPhone (r : SearchResults) : Option String :=
  match r.organic_results with
  | some os => findSnippetPhone (os.take 3)
  | none => none

/-- The extraction part of `search_phone_number` (src/app.py lines 130-158),
applied to an error-free response: knowledge graph, then first local result,
then organic snippets, else the not-found marker. -/
def extract_from_results (r : SearchResults) : String :=
  match kgPhone r with
  | some p => p
  | none =>
    match localPhone r with
    | some p => p
    | none =>
      match organicPhone r with
      | some p => p
      | none => "見つかりませんでした"

/-! ## The search engine loop -/

/-- Tests whether the pattern list starts the character list. -/
def charStartsWith : List Char → List Char → Bool
  | [], _ => true
  | _ :: _, [] => false
  | a :: as, b :: bs => a == b && charStartsWith as bs

/-- Python's `kw in s` on character lists: `kw` occurs contiguously in `l`. -/
def charContains (kw : List Char) : List Char → Bool
  | [] => kw.isEmpty
  | c :: rest => charStartsWith kw (c :: rest) || charContains kw rest

/-- Case-insensitive substring test: `kw in msg.lower()` for an
already-lowercase keyword `kw` (the code lowercases the message only). -/
def containsCI (msg kw : String) : Bool :=
  charContains kw.toList (msg.toList.map Char.toLower)

/-- Exact substring test: `kw in msg` (used for `"429"`, with no
lowercasing in the source). -/
def containsSub (msg kw : String) : Bool :=
  charContains kw.toList msg.toList

/-- The in-payload quota classification (src/app.py line 121):
`"quota" in m.lower() or "limit" in m.lower() or "credits" in m.lower()`. -/
def isQuotaError (msg : String) : Bool :=
  containsCI msg "quota" || containsCI msg "limit" || containsCI msg "credits"

/-- The exception quota classification (src/app.py line 163):
`"quota" in s.lower() or "limit" in s.lower() or "429" in s`. -/
def isQuotaException (msg : String) : Bool :=
  containsCI msg "quota" || containsCI msg "limit" || containsSub msg "429"

/-- The message returned when every key is exhausted. -/
def allExhaustedMsg : String := "全てのAPIキーが上限に達しました"

/-- The outcome of one `GoogleSearch(params).get_dict()` call: either a
response dictionary or a raised exception with its text `str(e)`. -/
inductive ReqOutcome where
  | response (r : SearchResults)
  | exception (msg : String)

/-- The observable outcome of a `search_phone_number` call: the returned
string, the final session state, the key passed to each issued request
(in order), and how many times `switch_to_next_api_key` was called. -/
structure SearchRun where
  result : String
  state : PoolState
  usedKeys : List (Option String)
  rotations : Nat
deriving DecidableEq

/-- The `for retry in range(max_retries)` loop of `search_phone_number`
(src/app.py lines 96-170).  `provider` is the environment: the outcome of
the request issued on loop iteration `retry`.  `fuel` is the number of
remaining iterations, `currentKey` the `current_key` variable.  Falling
out of the loop returns the all-exhausted message (line 172). -/
def searchLoop (keys : List String) (provider : Nat → ReqOutcome) :
    Nat → Nat → Option String → PoolState → SearchRun
  | 0, _, _, st => ⟨allExhaustedMsg, st, [], 0⟩
  | fuel + 1, retry, currentKey, st =>
    match provider retry with
    | .response r =>
      match r.error with
      | some msg =>
        if isQuotaError msg then
          match switch_to_next_api_key keys st with
          | (true, st₁) =>
            let p := get_current_api_key keys st₁
            let rest := searchLoop keys provider fuel (retry + 1) p.1 p.2
            ⟨rest.result, rest.state, currentKey :: rest.usedKeys, rest.rotations + 1⟩
          | (false, st₁) => ⟨allExhaustedMsg, st₁, [currentKey], 1⟩
        else ⟨"APIエラー: " ++ msg, st, [currentKey], 0⟩
      | none => ⟨extract_from_results r, st, [currentKey], 0⟩
    | .exception msg =>
      if isQuotaException msg then
        match switch_to_next_api_key keys st with
        | (true, st₁) =>
          let p := get_current_api_key keys st₁
          let rest := searchLoop keys provider fuel (retry + 1) p.1 p.2
          ⟨rest.result, rest.state, currentKey :: rest.usedKeys, rest.rotations + 1⟩
        | (false, st₁) => ⟨allExhaustedMsg, st₁, [currentKey], 1⟩
      else ⟨"エラー: " ++ msg, st, [currentKey], 0⟩

/-- Embeds `search_phone_number` (src/app.py lines 75-172), with the network
abstracted as `provider`.  Mirrors the preamble: the no-keys check, the
initial `get_current_api_key` with Python truthiness (`if not current_key`,
so `None` and `""` both bail out), then the retry loop with
`max_retries = len(API_KEYS)`. -/
def search_phone_number (keys : List String) (provider : Nat → ReqOutcome)
    (st : PoolState) : SearchRun :=
  if keys.isEmpty then ⟨"APIキー未設定", st, [], 0⟩
  else
    let p := get_current_api_key keys st
    if p.1.getD "" = "" then ⟨allExhaustedMsg, p.2, [], 0⟩
    else searchLoop keys provider keys.length 0 p.1 p.2

/-- The query built at src/app.py lines 99-102:
`store_name [+ " " + prefecture] + " 電話番号"` (the prefecture is appended
when present and non-empty). -/
def build_search_query (store_name prefecture : String) : String :=
  (store_name ++ (if prefecture ≠ "" then " " ++ prefecture else "")) ++ " 電話番号"

/-! ## Spreadsheet row processing -/

/-- A pandas cell value as the row loop reads it: missing (`NaN`) or a
string. -/
inductive Cell where
  | na
  | str (s : String)
deriving DecidableEq

/-- Computes `pd.notna` on a cell. -/
def Cell.notna : Cell → Bool
  | .na => false
  | .str _ => true

/-- The string content of a cell (`str(x)` on a present value). -/
def Cell.text : Cell → String
  | .na => ""
  | .str s => s

/-- The column padding at src/app.py lines 208-211: when the sheet has
fewer than 11 columns, columns named `Unnamed_i` are appended until there
are 11. -/
def padHeaders (headers : List String) : List String :=
  headers ++ ((List.range 11).drop headers.length).map
    (fun i => "Unnamed_" ++ toString i)

/-- The cells the padding at src/app.py lines 208-211 adds to each row:
every inserted column is filled with the empty string. -/
def padCells (origWidth : Nat) (row : List Cell) : List Cell :=
  row ++ List.replicate (11 - origWidth) (Cell.str "")

/-- The header normalisation at src/app.py lines 213-219: after padding,
the 11th header is renamed to `店舗番号` when it already is `店舗番号` or
contains `Unnamed`; any other pre-existing header is kept
("既存の列名がある場合は保持"). -/
def fixHeaders (headers : List String) : List String :=
  let padded := padHeaders headers
  let colK := padded.getD 10 "店舗番号"
  if colK ≠ "店舗番号" ∧ containsSub colK "Unnamed" = false then
    padded
  else
    padded.map (fun h => if h = colK then "店舗番号" else h)

/-- A pandas `row.get(label, default)` (src/app.py line 233): the cell of
the first column whose header matches the label, else the default.  The
header list is the one in force when the row loop starts: a `店舗番号`
column created by `df.at` during the loop is not visible to the rows the
already-started `iterrows` yields, whose values were snapshotted when
iteration began. -/
def rowGet (headers : List String) (row : List Cell) (label : String)
    (dflt : Cell) : Cell :=
  match headers.findIdx? (fun h => h = label) with
  | some j => row.getD j Cell.na
  | none => dflt

/-- One row of the `process_excel` loop (src/app.py lines 230-246),
combined with the write-back at lines 260-264: returns the value the
program finally writes into the row's column-K cell (the row's `店舗番号`
value after processing) and whether `search_phone_number` was invoked.
`headers` are the normalised headers.  The store name is the column-A cell
and the prefecture the column-C cell (lines 231-232); the skip test reads
`row.get("店舗番号", "")` (line 233), so when no `店舗番号` column exists
(a kept custom K header) it sees the default empty string, and the
`店舗番号` column created by the write at line 243 is a fresh one whose
cells are `NaN` on rows that are not written. -/
def processRow (engine : String → String → String)
    (headers : List String) (row : List Cell) : Cell × Bool :=
  let store_name := row.getD 0 Cell.na
  let prefecture := row.getD 2 Cell.na
  let current_phone := rowGet headers row "店舗番号" (Cell.str "")
  let kValue := rowGet headers row "店舗番号" Cell.na
  if store_name.notna && store_name.text ≠ "" then
    if !current_phone.notna || current_phone.text = "" then
      (Cell.str (engine store_name.text
        (if prefecture.notna then prefecture.text else "")), true)
    else (kValue, false)
  else (kValue, false)

/-- The row pass of `process_excel` (src/app.py lines 186-271) restricted
to what reaches the output workbook's column K: pad the columns, normalise
the headers, then map the per-row decision over the padded rows. -/
def process_excel (engine : String → String → String)
    (headers : List String) (rows : List (List Cell)) : List (Cell × Bool) :=
  (rows.map (padCells headers.length)).map
    (processRow engine (fixHeaders headers))

/-- The selection invariant: either the pool is depleted, or the current
index is in bounds and not failed. -/
def GoodPool (keys : List String) (st : PoolState) : Prop :=
  allExhausted keys st ∨
    (st.currentIndex < keys.length ∧ st.currentIndex ∉ st.failedKeys)

/-! ## Lemmas about the credential pool -/

theorem findNextIndex_none_iff (n cur : Nat) (failed : Finset Nat) (l : List Nat) :
    findNextIndex n cur failed l = none ↔
      ∀ i ∈ l, (cur + 1 + i) % n ∈ failed := by
  induction l with
  | nil => simp [findNextIndex]
  | cons i rest ih =>
    by_cases h : (cur + 1 + i) % n ∈ failed
    · simp [findNextIndex, h, ih]
    · simp [findNextIndex, h]

theorem findNextIndex_first (n cur : Nat) (failed : Finset Nat) :
    ∀ (l : List Nat) (v : Nat), findNextIndex n cur failed l = some v →
      ∃ (k : Nat) (i : Nat), l[k]? = some i ∧ v = (cur + 1 + i) % n ∧ v ∉ failed ∧
        ∀ k' < k, ∀ i', l[k']? = some i' → (cur + 1 + i') % n ∈ failed := by
  intro l
  induction l with
  | nil => intro v h; simp [findNextIndex] at h
  | cons i rest ih =>
    intro v h
    by_cases hmem : (cur + 1 + i) % n ∈ failed
    · have h' : findNextIndex n cur failed rest = some v := by
        simpa [findNextIndex, hmem] using h
      obtain ⟨k, j, hget, hv, hvnot, hfirst⟩ := ih v h'
      refine ⟨k + 1, j, by simpa using hget, hv, hvnot, ?_⟩
      intro k' hk' i' hget'
      cases k' with
      | zero =>
        have hii : i = i' := by simpa using hget'
        rw [← hii]; exact hmem
      | succ k'' =>
        exact hfirst k'' (by omega) i' (by simpa using hget')
    · have hv : (cur + 1 + i) % n = v := by
        simpa [findNextIndex, hmem] using h
      refine ⟨0, i, by simp, hv.symm, hv ▸ hmem, ?_⟩
      intro k' hk'
      omega

theorem mod_shift_surj (n cur j : Nat) (hj : j < n) :
    ∃ i < n, (cur + 1 + i) % n = j := by
  have hn : 0 < n := by omega
  have hc : (cur + 1) % n < n := Nat.mod_lt _ hn
  refine ⟨(j + n - (cur + 1) % n) % n, Nat.mod_lt _ hn, ?_⟩
  rw [Nat.add_mod_mod, ← Nat.mod_add_mod,
    Nat.add_sub_cancel' (by omega : (cur + 1) % n ≤ j + n),
    Nat.add_mod_right]
  exact Nat.mod_eq_of_lt hj

theorem switch_failed (keys : List String) (st : PoolState) :
    (switch_to_next_api_key keys st).2.failedKeys
      = insert st.currentIndex st.failedKeys := by
  unfold switch_to_next_api_key
  cases h : findNextIndex keys.length st.currentIndex
      (insert st.currentIndex st.failedKeys) (List.range keys.length) <;>
    simp [h]

theorem switch_failed_subset (keys : List String) (st : PoolState) :
    st.failedKeys ⊆ (switch_to_next_api_key keys st).2.failedKeys := by
  rw [switch_failed]
  exact Finset.subset_insert _ _

theorem get_current_valid (keys : List String) (st : PoolState)
    (h1 : st.currentIndex < keys.length) (h2 : st.currentIndex ∉ st.failedKeys) :
    get_current_api_key keys st = (keys.get? st.currentIndex, st) := by
  have hne : keys.isEmpty = false := by
    cases keys with
    | nil => simp at h1
    | cons a l => rfl
  have hmem : st.currentIndex ∈
      (List.range keys.length).filter (fun i => decide (i ∉ st.failedKeys)) := by
    simp [List.mem_filter, List.mem_range, h1, h2]
  have hav : ((List.range keys.length).filter
      (fun i => decide (i ∉ st.failedKeys))).isEmpty = false := by
    rcases hcase : ((List.range keys.length).filter
        (fun i => decide (i ∉ st.failedKeys))).isEmpty with _ | _
    · rfl
    · rw [List.isEmpty_iff] at hcase
      rw [hcase] at hmem
      simp at hmem
  unfold get_current_api_key
  simp [hne, hav, Nat.not_le.mpr h1]
  exact ⟨st.currentIndex, h1, h2⟩

theorem get_current_exhausted (keys : List String) (st : PoolState)
    (h : allExhausted keys st) :
    get_current_api_key keys st = (none, st) := by
  unfold get_current_api_key
  cases hk : keys.isEmpty with
  | true => simp [hk]
  | false =>
    have hfil : (List.range keys.length).filter
        (fun i => decide (i ∉ st.failedKeys)) = [] := by
      rw [List.filter_eq_nil_iff]
      intro a ha
      simp only [List.mem_range] at ha
      simp [h a ha]
    simp [hk, hfil]
    intro x hx hnot
    exact absurd (h x hx) hnot

theorem allExhausted_mono (keys : List String) {st st' : PoolState}
    (hsub : st.failedKeys ⊆ st'.failedKeys) (h : allExhausted keys st) :
    allExhausted keys st' :=
  fun j hj => hsub (h j hj)

theorem goodPool_init (keys : List String) : GoodPool keys ⟨0, ∅⟩ := by
  rcases Nat.eq_zero_or_pos keys.length with h | h
  · left; intro j hj; omega
  · right; exact ⟨h, Finset.not_mem_empty _⟩

theorem goodPool_step (keys : List String) (st : PoolState) (op : PoolOp)
    (h : GoodPool keys st) : GoodPool keys (applyOp keys st op) := by
  cases op with
  | getKey =>
    rcases h with hall | ⟨h1, h2⟩
    · left
      have := get_current_exhausted keys st hall
      simpa [applyOp, this] using hall
    · right
      have := get_current_valid keys st h1 h2
      simp [applyOp, this]
      exact ⟨h1, h2⟩
  | rotateKey =>
    rcases h with hall | ⟨h1, h2⟩
    · left; exact allExhausted_mono keys (switch_failed_subset keys st) hall
    · cases hfind : findNextIndex keys.length st.currentIndex
          (insert st.currentIndex st.failedKeys) (List.range keys.length) with
      | some v =>
        obtain ⟨k, i, _, hv, hvnot, _⟩ :=
          findNextIndex_first _ _ _ _ v hfind
        right
        have hstep : applyOp keys st PoolOp.rotateKey
            = ⟨v, insert st.currentIndex st.failedKeys⟩ := by
          simp [applyOp, switch_to_next_api_key, hfind]
        rw [hstep]
        exact ⟨hv ▸ Nat.mod_lt _ (by omega), hvnot⟩
      | none =>
        left
        intro j hj
        have hall := (findNextIndex_none_iff _ _ _ _).mp hfind
        obtain ⟨i, hi, hij⟩ := mod_shift_surj keys.length st.currentIndex j hj
        have hmem := hall i (List.mem_range.mpr hi)
        rw [hij] at hmem
        have hstep : applyOp keys st PoolOp.rotateKey
            = ⟨st.currentIndex, insert st.currentIndex st.failedKeys⟩ := by
          simp [applyOp, switch_to_next_api_key, hfind]
        rw [hstep]
        exact hmem

theorem goodPool_run (keys : List String) :
    ∀ (ops : List PoolOp) (st : PoolState),
      GoodPool keys st → GoodPool keys (runOps keys ops st) := by
  intro ops
  induction ops with
  | nil => intro st h; exact h
  | cons op rest ih => intro st h; exact ih _ (goodPool_step keys st op h)

theorem allExhausted_step (keys : List String) (st : PoolState) (op : PoolOp)
    (h : allExhausted keys st) : allExhausted keys (applyOp keys st op) := by
  cases op with
  | getKey =>
    have := get_current_exhausted keys st h
    simpa [applyOp, this] using h
  | rotateKey =>
    exact allExhausted_mono keys (switch_failed_subset keys st) h

theorem allExhausted_run (keys : List String) :
    ∀ (ops : List PoolOp) (st : PoolState),
      allExhausted keys st → allExhausted keys (runOps keys ops st) := by
  intro ops
  induction ops with
  | nil => intro st h; exact h
  | cons op rest ih => intro st h; exact ih _ (allExhausted_step keys st op h)

/-- Invariant along a run of `rotateN` from a fresh pool: after `k ≤ N`
rotations the failed set has exactly `k` indices, all in range, and while
`k < N` the current index is in range and not failed. -/
theorem rotateN_inv (keys : List String) (cur : Nat) (hcur : cur < keys.length) :
    ∀ k, k ≤ keys.length →
      (rotateN keys k ⟨cur, ∅⟩).failedKeys ⊆ Finset.range keys.length ∧
      (rotateN keys k ⟨cur, ∅⟩).failedKeys.card = k ∧
      (rotateN keys k ⟨cur, ∅⟩).currentIndex < keys.length ∧
      (k < keys.length →
        (rotateN keys k ⟨cur, ∅⟩).currentIndex ∉ (rotateN keys k ⟨cur, ∅⟩).failedKeys) := by
  intro k
  induction k with
  | zero =>
    intro _
    refine ⟨by simp [rotateN], by simp [rotateN], by simpa [rotateN] using hcur, ?_⟩
    intro _
    simp [rotateN]
  | succ k ih =>
    intro hk1
    obtain ⟨hsub, hcard, hlt, hnot⟩ := ih (by omega)
    have hnotk : (rotateN keys k ⟨cur, ∅⟩).currentIndex
        ∉ (rotateN keys k ⟨cur, ∅⟩).failedKeys := hnot (by omega)
    have hstep : rotateN keys (k + 1) ⟨cur, ∅⟩
        = (switch_to_next_api_key keys (rotateN keys k ⟨cur, ∅⟩)).2 := rfl
    have hfsub : insert (rotateN keys k ⟨cur, ∅⟩).currentIndex
        (rotateN keys k ⟨cur, ∅⟩).failedKeys ⊆ Finset.range keys.length := by
      intro x hx
      rcases Finset.mem_insert.mp hx with h | h
      · rw [h]; exact Finset.mem_range.mpr hlt
      · exact hsub h
    have hfcard : (insert (rotateN keys k ⟨cur, ∅⟩).currentIndex
        (rotateN keys k ⟨cur, ∅⟩).failedKeys).card = k + 1 := by
      rw [Finset.card_insert_of_not_mem hnotk, hcard]
    cases hfind : findNextIndex keys.length (rotateN keys k ⟨cur, ∅⟩).currentIndex
        (insert (rotateN keys k ⟨cur, ∅⟩).currentIndex (rotateN keys k ⟨cur, ∅⟩).failedKeys)
        (List.range keys.length) with
    | some v =>
      obtain ⟨kk, i, _, hv, hvnot, _⟩ := findNextIndex_first _ _ _ _ v hfind
      have hswitch : (switch_to_next_api_key keys (rotateN keys k ⟨cur, ∅⟩)).2
          = ⟨v, insert (rotateN keys k ⟨cur, ∅⟩).currentIndex
              (rotateN keys k ⟨cur, ∅⟩).failedKeys⟩ := by
        simp [switch_to_next_api_key, hfind]
      rw [hstep, hswitch]
      exact ⟨hfsub, hfcard, hv ▸ Nat.mod_lt _ (by omega), fun _ => hvnot⟩
    | none =>
      have hall := (findNextIndex_none_iff _ _ _ _).mp hfind
      have hrange : Finset.range keys.length ⊆
          insert (rotateN keys k ⟨cur, ∅⟩).currentIndex
            (rotateN keys k ⟨cur, ∅⟩).failedKeys := by
        intro j hj
        obtain ⟨i, hi, hij⟩ :=
          mod_shift_surj keys.length (rotateN keys k ⟨cur, ∅⟩).currentIndex j
            (Finset.mem_range.mp hj)
        have := hall i (List.mem_range.mpr hi)
        rwa [hij] at this
      have hge : keys.length ≤ k + 1 := by
        have := Finset.card_le_card hrange
        rwa [Finset.card_range, hfcard] at this
      have hswitch : (switch_to_next_api_key keys (rotateN keys k ⟨cur, ∅⟩)).2
          = ⟨(rotateN keys k ⟨cur, ∅⟩).currentIndex,
             insert (rotateN keys k ⟨cur, ∅⟩).currentIndex
               (rotateN keys k ⟨cur, ∅⟩).failedKeys⟩ := by
        simp [switch_to_next_api_key, hfind]
      rw [hstep, hswitch]
      exact ⟨hfsub, hfcard, hlt, fun hklt => absurd hklt (by omega)⟩

/-- C2: on a pool state where, after marking the current index exhausted,
some index is still non-exhausted, `switch_to_next_api_key` marks the
current index, scans forward cyclically from `current_index + 1`, moves to
the first non-exhausted index (skipping exhausted ones) and returns true;
if every index is exhausted after marking, it returns false and leaves the
pool depleted with the current index unchanged. -/
theorem rotate_scans_cyclically_for_first_usable (keys : List String) (st : PoolState) :
    (switch_to_next_api_key keys st).2.failedKeys
        = insert st.currentIndex st.failedKeys ∧
    ((∃ j < keys.length, j ∉ insert st.currentIndex st.failedKeys) →
      (switch_to_next_api_key keys st).1 = true ∧
      (switch_to_next_api_key keys st).2.currentIndex
          ∉ insert st.currentIndex st.failedKeys ∧
      ∃ i < keys.length,
        (switch_to_next_api_key keys st).2.currentIndex
            = (st.currentIndex + 1 + i) % keys.length ∧
        ∀ i' < i, (st.currentIndex + 1 + i') % keys.length
            ∈ insert st.currentIndex st.failedKeys) ∧
    ((∀ j < keys.length, j ∈ insert st.currentIndex st.failedKeys) →
      (switch_to_next_api_key keys st).1 = false ∧
      (switch_to_next_api_key keys st).2.currentIndex = st.currentIndex) := by
  refine ⟨switch_failed keys st, ?_, ?_⟩
  · rintro ⟨j, hj, hjnot⟩
    cases hfind : findNextIndex keys.length st.currentIndex
        (insert st.currentIndex st.failedKeys) (List.range keys.length) with
    | none =>
      exfalso
      have hall := (findNextIndex_none_iff _ _ _ _).mp hfind
      obtain ⟨i, hi, hij⟩ := mod_shift_surj keys.length st.currentIndex j hj
      have := hall i (List.mem_range.mpr hi)
      rw [hij] at this
      exact hjnot this
    | some v =>
      obtain ⟨k, i, hget, hv, hvnot, hfirst⟩ := findNextIndex_first _ _ _ _ v hfind
      obtain ⟨hk, hik⟩ := List.getElem?_eq_some.mp hget
      rw [List.length_range] at hk
      rw [List.getElem_range] at hik
      have hswitch : switch_to_next_api_key keys st
          = (true, ⟨v, insert st.currentIndex st.failedKeys⟩) := by
        simp [switch_to_next_api_key, hfind]
      rw [hswitch]
      refine ⟨rfl, hvnot, k, hk, ?_, ?_⟩
      · rw [hv, hik]
      · intro i' hi'
        exact hfirst i' hi' i' (List.getElem?_range (by omega))
  · intro hall
    cases hfind : findNextIndex keys.length st.currentIndex
        (insert st.currentIndex st.failedKeys) (List.range keys.length) with
    | none =>
      have hswitch : switch_to_next_api_key keys st
          = (false, ⟨st.currentIndex, insert st.currentIndex st.failedKeys⟩) := by
        simp [switch_to_next_api_key, hfind]
      rw [hswitch]
      exact ⟨rfl, rfl⟩
    | some v =>
      exfalso
      obtain ⟨k, i, hget, hv, hvnot, _⟩ := findNextIndex_first _ _ _ _ v hfind
      have hn : 0 < keys.length := by
        obtain ⟨hk, _⟩ := List.getElem?_eq_some.mp hget
        rw [List.length_range] at hk
        omega
      exact hvnot (hall v (hv ▸ Nat.mod_lt _ hn))

/-- Witness for C2 at a concrete pool: with keys `["a","b","c"]`, current
index 0 and index 1 already exhausted, rotation succeeds; with keys
`["a","b"]`, current index 1 and index 0 already exhausted, rotation fails. -/
theorem rotate_scans_cyclically_for_first_usable_witness :
    (switch_to_next_api_key ["a", "b", "c"] ⟨0, {1}⟩).1 = true ∧
    (switch_to_next_api_key ["a", "b"] ⟨1, {0}⟩).1 = false :=
  ⟨((rotate_scans_cyclically_for_first_usable ["a", "b", "c"] ⟨0, {1}⟩).2.1
      ⟨2, by decide, by decide⟩).1,
   ((rotate_scans_cyclically_for_first_usable ["a", "b"] ⟨1, {0}⟩).2.2
      (by decide)).1⟩

/-- C8: starting from any in-bounds current index with an empty exhausted
set, after exactly `N = keys.length` rotations `get_current_api_key`
returns `none`, and after any `k < N` rotations it still returns a key. -/
theorem depletion_after_exactly_N (keys : List String) (cur : Nat)
    (hcur : cur < keys.length) :
    (get_current_api_key keys (rotateN keys keys.length ⟨cur, ∅⟩)).1 = none ∧
    ∀ k < keys.length, ∃ c,
      (get_current_api_key keys (rotateN keys k ⟨cur, ∅⟩)).1 = some c := by
  constructor
  · obtain ⟨hsub, hcard, _, _⟩ := rotateN_inv keys cur hcur keys.length le_rfl
    have heq : (rotateN keys keys.length ⟨cur, ∅⟩).failedKeys
        = Finset.range keys.length :=
      Finset.eq_of_subset_of_card_le hsub (by rw [hcard, Finset.card_range])
    have hall : allExhausted keys (rotateN keys keys.length ⟨cur, ∅⟩) := by
      intro j hj
      rw [heq]
      exact Finset.mem_range.mpr hj
    rw [get_current_exhausted keys _ hall]
  · intro k hk
    obtain ⟨_, _, hlt, hnot⟩ := rotateN_inv keys cur hcur k (by omega)
    refine ⟨keys.get ⟨_, hlt⟩, ?_⟩
    rw [get_current_valid keys _ hlt (hnot hk)]
    exact List.get?_eq_get hlt

/-- Witness for C8 with two keys: depleted after 2 rotations, usable after 1. -/
theorem depletion_after_exactly_N_witness :
    (get_current_api_key ["a", "b"] (rotateN ["a", "b"] 2 ⟨0, ∅⟩)).1 = none ∧
    ∃ c, (get_current_api_key ["a", "b"] (rotateN ["a", "b"] 1 ⟨0, ∅⟩)).1 = some c :=
  ⟨(depletion_after_exactly_N ["a", "b"] 0 (by decide)).1,
   (depletion_after_exactly_N ["a", "b"] 0 (by decide)).2 1 (by decide)⟩

/-- C9: in every pool state reachable from initialization by `get`/`rotate`
calls, unless every index is exhausted the current index is in bounds and
non-exhausted and `get_current_api_key` returns the key at that index; once
every index is exhausted, it returns `none` for the remainder of the run. -/
theorem pool_selection_invariant (keys : List String) (ops : List PoolOp) :
    (¬ allExhausted keys (runOps keys ops ⟨0, ∅⟩) →
      (runOps keys ops ⟨0, ∅⟩).currentIndex < keys.length ∧
      (runOps keys ops ⟨0, ∅⟩).currentIndex ∉ (runOps keys ops ⟨0, ∅⟩).failedKeys ∧
      ∃ c, (get_current_api_key keys (runOps keys ops ⟨0, ∅⟩)).1 = some c ∧
        keys.get? (runOps keys ops ⟨0, ∅⟩).currentIndex = some c) ∧
    (allExhausted keys (runOps keys ops ⟨0, ∅⟩) →
      ∀ ops', (get_current_api_key keys
        (runOps keys ops' (runOps keys ops ⟨0, ∅⟩))).1 = none) := by
  have hgood := goodPool_run keys ops _ (goodPool_init keys)
  constructor
  · intro hne
    rcases hgood with h | ⟨h1, h2⟩
    · exact absurd h hne
    · refine ⟨h1, h2, keys.get ⟨_, h1⟩, ?_, List.get?_eq_get h1⟩
      rw [get_current_valid keys _ h1 h2]
      exact List.get?_eq_get h1
  · intro hall ops'
    have := allExhausted_run keys ops' _ hall
    rw [get_current_exhausted keys _ this]

/-- Witness for C9: after one rotation on two keys the pool still selects a
usable key; after two rotations it is depleted and stays depleted. -/
theorem pool_selection_invariant_witness :
    (∃ c, (get_current_api_key ["a", "b"]
        (runOps ["a", "b"] [PoolOp.rotateKey] ⟨0, ∅⟩)).1 = some c ∧
      ["a", "b"].get? (runOps ["a", "b"] [PoolOp.rotateKey] ⟨0, ∅⟩).currentIndex
        = some c) ∧
    (get_current_api_key ["a", "b"]
      (runOps ["a", "b"] [] (runOps ["a", "b"]
        [PoolOp.rotateKey, PoolOp.rotateKey] ⟨0, ∅⟩))).1 = none :=
  ⟨((pool_selection_invariant ["a", "b"] [PoolOp.rotateKey]).1 (by decide)).2.2,
   (pool_selection_invariant ["a", "b"] [PoolOp.rotateKey, PoolOp.rotateKey]).2
     (by decide) []⟩

/-! ## Lemmas about the search loop -/

theorem search_unfold (keys : List String) (provider : Nat → ReqOutcome)
    (st : PoolState) (key : String)
    (hcur : st.currentIndex < keys.length) (hnf : st.currentIndex ∉ st.failedKeys)
    (hkey : keys.get? st.currentIndex = some key) (hne : key ≠ "") :
    search_phone_number keys provider st
      = searchLoop keys provider keys.length 0 (some key) st := by
  have hnil : keys.isEmpty = false := by
    cases keys with
    | nil => simp at hcur
    | cons a l => rfl
  unfold search_phone_number
  rw [get_current_valid keys st hcur hnf, hkey]
  simp [hnil, hne]

theorem searchLoop_quota_step (keys : List String) (provider : Nat → ReqOutcome)
    (fuel retry : Nat) (ck : Option String) (st : PoolState)
    (r : SearchResults) (e : String)
    (hp : provider retry = .response r) (he : r.error = some e)
    (hq : isQuotaError e = true) :
    searchLoop keys provider (fuel + 1) retry ck st
      = if (switch_to_next_api_key keys st).1 then
          ⟨(searchLoop keys provider fuel (retry + 1)
              (get_current_api_key keys (switch_to_next_api_key keys st).2).1
              (get_current_api_key keys (switch_to_next_api_key keys st).2).2).result,
           (searchLoop keys provider fuel (retry + 1)
              (get_current_api_key keys (switch_to_next_api_key keys st).2).1
              (get_current_api_key keys (switch_to_next_api_key keys st).2).2).state,
           ck :: (searchLoop keys provider fuel (retry + 1)
              (get_current_api_key keys (switch_to_next_api_key keys st).2).1
              (get_current_api_key keys (switch_to_next_api_key keys st).2).2).usedKeys,
           (searchLoop keys provider fuel (retry + 1)
              (get_current_api_key keys (switch_to_next_api_key keys st).2).1
              (get_current_api_key keys (switch_to_next_api_key keys st).2).2).rotations + 1⟩
        else ⟨allExhaustedMsg, (switch_to_next_api_key keys st).2, [ck], 1⟩ := by
  cases hsw : switch_to_next_api_key keys st with
  | mk b st₁ =>
    cases b <;> simp [searchLoop, hp, he, hq, hsw]

theorem searchLoop_apierror_step (keys : List String) (provider : Nat → ReqOutcome)
    (fuel retry : Nat) (ck : Option String) (st : PoolState)
    (r : SearchResults) (e : String)
    (hp : provider retry = .response r) (he : r.error = some e)
    (hq : isQuotaError e = false) :
    searchLoop keys provider (fuel + 1) retry ck st
      = ⟨"APIエラー: " ++ e, st, [ck], 0⟩ := by
  simp [searchLoop, hp, he, hq]

theorem searchLoop_extract_step (keys : List String) (provider : Nat → ReqOutcome)
    (fuel retry : Nat) (ck : Option String) (st : PoolState)
    (r : SearchResults)
    (hp : provider retry = .response r) (he : r.error = none) :
    searchLoop keys provider (fuel + 1) retry ck st
      = ⟨extract_from_results r, st, [ck], 0⟩ := by
  simp [searchLoop, hp, he]

theorem searchLoop_exc_quota_step (keys : List String) (provider : Nat → ReqOutcome)
    (fuel retry : Nat) (ck : Option String) (st : PoolState) (m : String)
    (hp : provider retry = .exception m) (hq : isQuotaException m = true) :
    searchLoop keys provider (fuel + 1) retry ck st
      = if (switch_to_next_api_key keys st).1 then
          ⟨(searchLoop keys provider fuel (retry + 1)
              (get_current_api_key keys (switch_to_next_api_key keys st).2).1
              (get_current_api_key keys (switch_to_next_api_key keys st).2).2).result,
           (searchLoop keys provider fuel (retry + 1)
              (get_current_api_key keys (switch_to_next_api_key keys st).2).1
              (get_current_api_key keys (switch_to_next_api_key keys st).2).2).state,
           ck :: (searchLoop keys provider fuel (retry + 1)
              (get_current_api_key keys (switch_to_next_api_key keys st).2).1
              (get_current_api_key keys (switch_to_next_api_key keys st).2).2).usedKeys,
           (searchLoop keys provider fuel (retry + 1)
              (get_current_api_key keys (switch_to_next_api_key keys st).2).1
              (get_current_api_key keys (switch_to_next_api_key keys st).2).2).rotations + 1⟩
        else ⟨allExhaustedMsg, (switch_to_next_api_key keys st).2, [ck], 1⟩ := by
  cases hsw : switch_to_next_api_key keys st with
  | mk b st₁ =>
    cases b <;> simp [searchLoop, hp, hq, hsw]

theorem searchLoop_exc_other_step (keys : List String) (provider : Nat → ReqOutcome)
    (fuel retry : Nat) (ck : Option String) (st : PoolState) (m : String)
    (hp : provider retry = .exception m) (hq : isQuotaException m = false) :
    searchLoop keys provider (fuel + 1) retry ck st
      = ⟨"エラー: " ++ m, st, [ck], 0⟩ := by
  simp [searchLoop, hp, hq]

theorem searchLoop_used_first (keys : List String) (provider : Nat → ReqOutcome)
    (fuel retry : Nat) (ck : Option String) (st : PoolState) :
    (searchLoop keys provider (fuel + 1) retry ck st).usedKeys.get? 0 = some ck := by
  cases hp : provider retry with
  | response r =>
    cases he : r.error with
    | none =>
      rw [searchLoop_extract_step keys provider fuel retry ck st r hp he]
      rfl
    | some e =>
      cases hq : isQuotaError e with
      | false =>
        rw [searchLoop_apierror_step keys provider fuel retry ck st r e hp he hq]
        rfl
      | true =>
        rw [searchLoop_quota_step keys provider fuel retry ck st r e hp he hq]
        cases hsw : (switch_to_next_api_key keys st).1 <;> simp [hsw]
  | exception m =>
    cases hq : isQuotaException m with
    | false =>
      rw [searchLoop_exc_other_step keys provider fuel retry ck st m hp hq]
      rfl
    | true =>
      rw [searchLoop_exc_quota_step keys provider fuel retry ck st m hp hq]
      cases hsw : (switch_to_next_api_key keys st).1 <;> simp [hsw]

theorem switch_true_parts (keys : List String) (st : PoolState) (v : Nat)
    (hfind : findNextIndex keys.length st.currentIndex
      (insert st.currentIndex st.failedKeys) (List.range keys.length) = some v) :
    switch_to_next_api_key keys st
      = (true, ⟨v, insert st.currentIndex st.failedKeys⟩) := by
  simp [switch_to_next_api_key, hfind]

/-- If rotation succeeds from a state whose current index is in bounds,
the pool has at least two keys. -/
theorem switch_true_two_keys (keys : List String) (st : PoolState)
    (hcur : st.currentIndex < keys.length)
    (hsw : (switch_to_next_api_key keys st).1 = true) :
    2 ≤ keys.length := by
  cases hfind : findNextIndex keys.length st.currentIndex
      (insert st.currentIndex st.failedKeys) (List.range keys.length) with
  | none =>
    exfalso
    have : switch_to_next_api_key keys st
        = (false, ⟨st.currentIndex, insert st.currentIndex st.failedKeys⟩) := by
      simp [switch_to_next_api_key, hfind]
    rw [this] at hsw
    simp at hsw
  | some v =>
    obtain ⟨k, i, _, hv, hvnot, _⟩ := findNextIndex_first _ _ _ _ v hfind
    have hvlt : v < keys.length := hv ▸ Nat.mod_lt _ (by omega)
    have hvne : v ≠ st.currentIndex := by
      intro hcontra
      exact hvnot (hcontra ▸ Finset.mem_insert_self _ _)
    omega

/-- C1: from a usable pool state, a response whose error message contains a
quota/limit/credits keyword makes `search_phone_number` call
`switch_to_next_api_key`; if the rotation succeeds the request is retried
with the newly selected credential, and if it fails the function returns
the all-exhausted sentinel string. -/
theorem quota_error_rotates_and_retries (keys : List String)
    (provider : Nat → ReqOutcome) (st : PoolState) (key : String)
    (r : SearchResults) (e : String)
    (hcur : st.currentIndex < keys.length) (hnf : st.currentIndex ∉ st.failedKeys)
    (hkey : keys.get? st.currentIndex = some key) (hne : key ≠ "")
    (hp : provider 0 = .response r) (he : r.error = some e)
    (hq : isQuotaError e = true) :
    1 ≤ (search_phone_number keys provider st).rotations ∧
    ((switch_to_next_api_key keys st).1 = true →
      2 ≤ (search_phone_number keys provider st).usedKeys.length ∧
      (search_phone_number keys provider st).usedKeys.get? 1
        = some (get_current_api_key keys (switch_to_next_api_key keys st).2).1) ∧
    ((switch_to_next_api_key keys st).1 = false →
      (search_phone_number keys provider st).result
        = "全てのAPIキーが上限に達しました") := by
  rw [search_unfold keys provider st key hcur hnf hkey hne]
  obtain ⟨m, hm⟩ : ∃ m, keys.length = m + 1 := ⟨keys.length - 1, by omega⟩
  rw [hm, searchLoop_quota_step keys provider m 0 (some key) st r e hp he hq]
  cases hsw : (switch_to_next_api_key keys st).1 with
  | false =>
    simp only [hsw, Bool.false_eq_true, if_false]
    refine ⟨le_refl 1, ?_, fun _ => rfl⟩
    exact fun h => h.elim
  | true =>
    have h2 : 2 ≤ keys.length := switch_true_two_keys keys st hcur hsw
    obtain ⟨m', hm'⟩ : ∃ m', m = m' + 1 := ⟨m - 1, by omega⟩
    simp only [hsw, if_true]
    refine ⟨by simp, ?_, ?_⟩
    · intro _
      constructor
      · simp only [hm']
        have := searchLoop_used_first keys provider m' 1
          (get_current_api_key keys (switch_to_next_api_key keys st).2).1
          (get_current_api_key keys (switch_to_next_api_key keys st).2).2
        have hlen : 1 ≤ (searchLoop keys provider (m' + 1) 1
            (get_current_api_key keys (switch_to_next_api_key keys st).2).1
            (get_current_api_key keys (switch_to_next_api_key keys st).2).2).usedKeys.length := by
          by_contra hcon
          have h0 : (searchLoop keys provider (m' + 1) 1
              (get_current_api_key keys (switch_to_next_api_key keys st).2).1
              (get_current_api_key keys (switch_to_next_api_key keys st).2).2).usedKeys = [] := by
            cases hc : (searchLoop keys provider (m' + 1) 1
                (get_current_api_key keys (switch_to_next_api_key keys st).2).1
                (get_current_api_key keys (switch_to_next_api_key keys st).2).2).usedKeys with
            | nil => rfl
            | cons a l => rw [hc] at hcon; simp at hcon
          rw [h0] at this
          simp at this
        simp [List.length_cons]
        omega
      · simp only [hm', SearchRun.usedKeys, List.get?_cons_succ]
        exact searchLoop_used_first keys provider m' 1 _ _
    · exact fun h => absurd h (by simp)

/-- Witness for C1: two fresh keys, first response is a quota error, second
response carries a phone number; the run rotates and retries with key 2. -/
theorem quota_error_rotates_and_retries_witness :
    1 ≤ (search_phone_number ["k1", "k2"]
      (fun n => if n = 0
        then .response ⟨some "Monthly quota exceeded", none, none, none⟩
        else .response ⟨none, some ⟨some "03-1111-2222"⟩, none, none⟩)
      ⟨0, ∅⟩).rotations ∧
    (search_phone_number ["k1", "k2"]
      (fun n => if n = 0
        then .response ⟨some "Monthly quota exceeded", none, none, none⟩
        else .response ⟨none, some ⟨some "03-1111-2222"⟩, none, none⟩)
      ⟨0, ∅⟩).usedKeys.get? 1
      = some (get_current_api_key ["k1", "k2"]
          (switch_to_next_api_key ["k1", "k2"] ⟨0, ∅⟩).2).1 :=
  ⟨(quota_error_rotates_and_retries ["k1", "k2"] _ ⟨0, ∅⟩ "k1"
      ⟨some "Monthly quota exceeded", none, none, none⟩ "Monthly quota exceeded"
      (by decide) (by decide) rfl (by decide) rfl rfl (by decide)).1,
   ((quota_error_rotates_and_retries ["k1", "k2"] _ ⟨0, ∅⟩ "k1"
      ⟨some "Monthly quota exceeded", none, none, none⟩ "Monthly quota exceeded"
      (by decide) (by decide) rfl (by decide) rfl rfl (by decide)).2.1
      (by decide)).2⟩

/-- C5: from a usable pool state, a response whose error message contains
no quota keyword returns the provider-error string immediately, with no
rotation and the pool state unchanged. -/
theorem non_quota_error_immediate (keys : List String)
    (provider : Nat → ReqOutcome) (st : PoolState) (key : String)
    (r : SearchResults) (e : String)
    (hcur : st.currentIndex < keys.length) (hnf : st.currentIndex ∉ st.failedKeys)
    (hkey : keys.get? st.currentIndex = some key) (hne : key ≠ "")
    (hp : provider 0 = .response r) (he : r.error = some e)
    (hq : isQuotaError e = false) :
    (search_phone_number keys provider st).result = "APIエラー: " ++ e ∧
    (search_phone_number keys provider st).rotations = 0 ∧
    (search_phone_number keys provider st).state = st := by
  rw [search_unfold keys provider st key hcur hnf hkey hne]
  obtain ⟨m, hm⟩ : ∃ m, keys.length = m + 1 := ⟨keys.length - 1, by omega⟩
  rw [hm, searchLoop_apierror_step keys provider m 0 (some key) st r e hp he hq]
  exact ⟨rfl, rfl, rfl⟩

/-- Witness for C5 at the spec's concrete example: the error
`"Invalid query parameter"` is returned untouched and nothing rotates. -/
theorem non_quota_error_immediate_witness :
    (search_phone_number ["k1", "k2"]
      (fun _ => .response ⟨some "Invalid query parameter", none, none, none⟩)
      ⟨0, ∅⟩).result = "APIエラー: Invalid query parameter" ∧
    (search_phone_number ["k1", "k2"]
      (fun _ => .response ⟨some "Invalid query parameter", none, none, none⟩)
      ⟨0, ∅⟩).rotations = 0 ∧
    (search_phone_number ["k1", "k2"]
      (fun _ => .response ⟨some "Invalid query parameter", none, none, none⟩)
      ⟨0, ∅⟩).state = ⟨0, ∅⟩ :=
  non_quota_error_immediate ["k1", "k2"] _ ⟨0, ∅⟩ "k1"
    ⟨some "Invalid query parameter", none, none, none⟩ "Invalid query parameter"
    (by decide) (by decide) rfl (by decide) rfl rfl (by decide)

/-- C7: from a usable pool state, a request exception whose text contains
"quota"/"limit" (case-insensitive) or "429" is handled exactly like a
quota-class provider error (rotate, retry with the new credential, or
return the all-exhausted sentinel when rotation fails); any other exception
text returns the error string immediately without rotating. -/
theorem transport_exception_classification (keys : List String)
    (provider : Nat → ReqOutcome) (st : PoolState) (key : String) (m : String)
    (hcur : st.currentIndex < keys.length) (hnf : st.currentIndex ∉ st.failedKeys)
    (hkey : keys.get? st.currentIndex = some key) (hne : key ≠ "")
    (hp : provider 0 = .exception m) :
    (isQuotaException m = true →
      1 ≤ (search_phone_number keys provider st).rotations ∧
      ((switch_to_next_api_key keys st).1 = true →
        2 ≤ (search_phone_number keys provider st).usedKeys.length ∧
        (search_phone_number keys provider st).usedKeys.get? 1
          = some (get_current_api_key keys (switch_to_next_api_key keys st).2).1) ∧
      ((switch_to_next_api_key keys st).1 = false →
        (search_phone_number keys provider st).result
          = "全てのAPIキーが上限に達しました")) ∧
    (isQuotaException m = false →
      (search_phone_number keys provider st).result = "エラー: " ++ m ∧
      (search_phone_number keys provider st).rotations = 0 ∧
      (search_phone_number keys provider st).state = st) := by
  rw [search_unfold keys provider st key hcur hnf hkey hne]
  obtain ⟨mm, hmm⟩ : ∃ mm, keys.length = mm + 1 := ⟨keys.length - 1, by omega⟩
  constructor
  · intro hq
    rw [hmm, searchLoop_exc_quota_step keys provider mm 0 (some key) st m hp hq]
    cases hsw : (switch_to_next_api_key keys st).1 with
    | false =>
      simp only [hsw, Bool.false_eq_true, if_false]
      refine ⟨le_refl 1, ?_, fun _ => rfl⟩
      exact fun h => h.elim
    | true =>
      have h2 : 2 ≤ keys.length := switch_true_two_keys keys st hcur hsw
      obtain ⟨m', hm'⟩ : ∃ m', mm = m' + 1 := ⟨mm - 1, by omega⟩
      simp only [hsw, if_true]
      refine ⟨Nat.succ_le_succ (Nat.zero_le _), ?_, ?_⟩
      · intro _
        constructor
        · have hfirst := searchLoop_used_first keys provider m' 1
            (get_current_api_key keys (switch_to_next_api_key keys st).2).1
            (get_current_api_key keys (switch_to_next_api_key keys st).2).2
          have hlen : 1 ≤ (searchLoop keys provider (m' + 1) 1
              (get_current_api_key keys (switch_to_next_api_key keys st).2).1
              (get_current_api_key keys (switch_to_next_api_key keys st).2).2).usedKeys.length := by
            by_contra hcon
            have h0 : (searchLoop keys provider (m' + 1) 1
                (get_current_api_key keys (switch_to_next_api_key keys st).2).1
                (get_current_api_key keys (switch_to_next_api_key keys st).2).2).usedKeys = [] := by
              cases hc : (searchLoop keys provider (m' + 1) 1
                  (get_current_api_key keys (switch_to_next_api_key keys st).2).1
                  (get_current_api_key keys (switch_to_next_api_key keys st).2).2).usedKeys with
              | nil => rfl
              | cons a l => rw [hc] at hcon; simp at hcon
            rw [h0] at hfirst
            simp at hfirst
          simp only [hm']
          simp [List.length_cons]
          omega
        · simp only [hm', List.get?_cons_succ]
          exact searchLoop_used_first keys provider m' 1 _ _
      · exact fun h => absurd h (by simp)
  · intro hq
    rw [hmm, searchLoop_exc_other_step keys provider mm 0 (some key) st m hp hq]
    exact ⟨rfl, rfl, rfl⟩

/-- Witness for C7: a "429" exception rotates; a "connection reset"
exception is returned immediately as an error string. -/
theorem transport_exception_classification_witness :
    1 ≤ (search_phone_number ["k1", "k2"]
      (fun n => if n = 0 then .exception "HTTP 429 Too Many Requests"
        else .response ⟨none, some ⟨some "03-1111-2222"⟩, none, none⟩)
      ⟨0, ∅⟩).rotations ∧
    (search_phone_number ["k1", "k2"]
      (fun _ => .exception "connection reset") ⟨0, ∅⟩).result
      = "エラー: connection reset" :=
  ⟨((transport_exception_classification ["k1", "k2"] _ ⟨0, ∅⟩ "k1"
      "HTTP 429 Too Many Requests"
      (by decide) (by decide) rfl (by decide) rfl).1 (by decide)).1,
   ((transport_exception_classification ["k1", "k2"] _ ⟨0, ∅⟩ "k1"
      "connection reset"
      (by decide) (by decide) rfl (by decide) rfl).2 (by decide)).1⟩

/-- Counterexample for C6: the SerpAPI out-of-searches message
`"Your account has run out of searches for this month"` contains none of
the keywords "quota"/"limit"/"credits", so with two fresh credentials
`search_phone_number` performs no rotation, issues exactly one request, and
returns the provider-error string immediately — it does not rotate and
retry as the claim states. -/
theorem run_out_of_searches_does_not_rotate :
    (search_phone_number ["key1", "key2"]
      (fun _ => .response
        ⟨some "Your account has run out of searches for this month",
         none, none, none⟩) ⟨0, ∅⟩).rotations = 0 ∧
    (search_phone_number ["key1", "key2"]
      (fun _ => .response
        ⟨some "Your account has run out of searches for this month",
         none, none, none⟩) ⟨0, ∅⟩).usedKeys.length = 1 ∧
    (search_phone_number ["key1", "key2"]
      (fun _ => .response
        ⟨some "Your account has run out of searches for this month",
         none, none, none⟩) ⟨0, ∅⟩).result
      = "APIエラー: Your account has run out of searches for this month" := by
  refine ⟨rfl, rfl, rfl⟩

/-- C6 (amended): a response with error message
`"Your account has run out of searches for this month"` on a pool with two
usable credentials makes `search_phone_number` return the provider-error
string immediately, without rotating and with the pool state unchanged,
because the message contains no quota/limit/credits keyword. -/
theorem run_out_of_searches_immediate_error :
    (search_phone_number ["key1", "key2"]
      (fun _ => .response
        ⟨some "Your account has run out of searches for this month",
         none, none, none⟩) ⟨0, ∅⟩).result
      = "APIエラー: Your account has run out of searches for this month" ∧
    (search_phone_number ["key1", "key2"]
      (fun _ => .response
        ⟨some "Your account has run out of searches for this month",
         none, none, none⟩) ⟨0, ∅⟩).rotations = 0 ∧
    (search_phone_number ["key1", "key2"]
      (fun _ => .response
        ⟨some "Your account has run out of searches for this month",
         none, none, none⟩) ⟨0, ∅⟩).state = ⟨0, ∅⟩ := by
  refine ⟨rfl, rfl, rfl⟩

/-! ## Lemmas about extraction -/

theorem findSnippetPhone_eq_none (l : List OrganicResult)
    (h : ∀ o ∈ l, snippetMatch (o.snippet.getD "") = none) :
    findSnippetPhone l = none := by
  induction l with
  | nil => rfl
  | cons o rest ih =>
    unfold findSnippetPhone
    rw [h o (by simp)]
    exact ih (fun o' ho' => h o' (by simp [ho']))

/-- C3: extraction honours the strict priority order: a knowledge-graph
phone wins; otherwise the first local result's phone wins; only otherwise
do the organic snippets decide the result.  At the concrete response with
knowledge-graph phone "03-1234-5678" and a contradicting organic digit
pattern, the knowledge-graph value is returned. -/
theorem extraction_priority_order :
    (∀ (r : SearchResults) (kg : KnowledgeGraph) (p : String),
      r.error = none → r.knowledge_graph = some kg → kg.phone = some p →
      extract_from_results r = p) ∧
    (∀ (r : SearchResults) (q : String),
      r.error = none → kgPhone r = none → localPhone r = some q →
      extract_from_results r = q) ∧
    (∀ (r : SearchResults),
      r.error = none → kgPhone r = none → localPhone r = none →
      extract_from_results r =
        (match organicPhone r with
         | some p => p
         | none => "見つかりませんでした")) ∧
    extract_from_results
      ⟨none, some ⟨some "03-1234-5678"⟩, none,
       some [⟨some "TEL: 0398765432"⟩]⟩ = "03-1234-5678" := by
  refine ⟨?_, ?_, ?_, rfl⟩
  · intro r kg p _ hkg hp
    have h : kgPhone r = some p := by
      unfold kgPhone
      rw [hkg]
      exact hp
    unfold extract_from_results
    rw [h]
  · intro r q _ hkg hloc
    unfold extract_from_results
    rw [hkg, hloc]
  · intro r _ hkg hloc
    unfold extract_from_results
    rw [hkg, hloc]

/-- Witness for C3: each priority tier applied at a concrete response. -/
theorem extraction_priority_order_witness :
    extract_from_results
      ⟨none, some ⟨some "03-1234-5678"⟩, none,
       some [⟨some "TEL: 0398765432"⟩]⟩ = "03-1234-5678" ∧
    extract_from_results
      ⟨none, none, some [⟨some "0120-11-2222"⟩],
       some [⟨some "TEL: 0398765432"⟩]⟩ = "0120-11-2222" ∧
    extract_from_results
      ⟨none, none, none, some [⟨some "TEL: 0398765432"⟩]⟩ = "0398765432" :=
  ⟨extraction_priority_order.1
      ⟨none, some ⟨some "03-1234-5678"⟩, none, some [⟨some "TEL: 0398765432"⟩]⟩
      ⟨some "03-1234-5678"⟩ "03-1234-5678" rfl rfl rfl,
   extraction_priority_order.2.1
      ⟨none, none, some [⟨some "0120-11-2222"⟩], some [⟨some "TEL: 0398765432"⟩]⟩
      "0120-11-2222" rfl rfl rfl,
   (extraction_priority_order.2.2.1
      ⟨none, none, none, some [⟨some "TEL: 0398765432"⟩]⟩
      rfl rfl rfl).trans rfl⟩

/-- C4: the organic scan looks at the first 3 results only, first snippet
with any match wins (later snippets are never consulted), patterns are
tried in the fixed source order within a snippet, the given concrete
snippets yield "0312345678", and no match at all yields the
not-found marker. -/
theorem organic_scan_first_snippet_first_pattern :
    (∀ (o : OrganicResult) (rest : List OrganicResult) (m : String),
      snippetMatch (o.snippet.getD "") = some m →
      findSnippetPhone (o :: rest) = some m) ∧
    (∀ (o : OrganicResult) (rest : List OrganicResult),
      snippetMatch (o.snippet.getD "") = none →
      findSnippetPhone (o :: rest) = findSnippetPhone rest) ∧
    (∀ (r : SearchResults) (os : List OrganicResult),
      r.error = none → kgPhone r = none → localPhone r = none →
      r.organic_results = some os →
      extract_from_results r =
        (match findSnippetPhone (os.take 3) with
         | some p => p
         | none => "見つかりませんでした")) ∧
    (∀ (s : String) (cs : List Char),
      reSearch [Tok.digits 2 4, Tok.dash, Tok.digits 2 4, Tok.dash,
        Tok.digits 4 4] s.toList = some cs →
      snippetMatch s = some (String.mk cs)) ∧
    (∀ (s : String) (cs : List Char),
      reSearch [Tok.digits 2 4, Tok.dash, Tok.digits 2 4, Tok.dash,
        Tok.digits 4 4] s.toList = none →
      reSearch [Tok.digits 3 3, Tok.dash, Tok.digits 4 4, Tok.dash,
        Tok.digits 4 4] s.toList = some cs →
      snippetMatch s = some (String.mk cs)) ∧
    (∀ (s : String) (cs : List Char),
      reSearch [Tok.digits 2 4, Tok.dash, Tok.digits 2 4, Tok.dash,
        Tok.digits 4 4] s.toList = none →
      reSearch [Tok.digits 3 3, Tok.dash, Tok.digits 4 4, Tok.dash,
        Tok.digits 4 4] s.toList = none →
      reSearch [Tok.digits 10 11] s.toList = some cs →
      snippetMatch s = some (String.mk cs)) ∧
    (∀ (s : String),
      reSearch [Tok.digits 2 4, Tok.dash, Tok.digits 2 4, Tok.dash,
        Tok.digits 4 4] s.toList = none →
      reSearch [Tok.digits 3 3, Tok.dash, Tok.digits 4 4, Tok.dash,
        Tok.digits 4 4] s.toList = none →
      reSearch [Tok.digits 10 11] s.toList = none →
      snippetMatch s = none) ∧
    (∀ (r : SearchResults) (os : List OrganicResult),
      r.error = none → kgPhone r = none → localPhone r = none →
      r.organic_results = some os →
      (∀ o ∈ os.take 3, snippetMatch (o.snippet.getD "") = none) →
      extract_from_results r = "見つかりませんでした") ∧
    extract_from_results
      ⟨none, none, none,
       some [⟨some "お問い合わせは0312345678まで"⟩, ⟨some "詳細は店舗へ"⟩]⟩
      = "0312345678" := by
  refine ⟨?_, ?_, ?_, ?_, ?_, ?_, ?_, ?_, rfl⟩
  · intro o rest m h
    unfold findSnippetPhone
    rw [h]
  · intro o rest h
    simp [findSnippetPhone, h]
  · intro r os _ hkg hloc horg
    unfold extract_from_results organicPhone
    rw [hkg, hloc, horg]
  · intro s cs h1
    unfold snippetMatch phone_patterns
    simp only [String.toList] at h1
    simp [List.findSome?, h1]
  · intro s cs h1 h2
    unfold snippetMatch phone_patterns
    simp only [String.toList] at h1 h2
    simp [List.findSome?, h1, h2]
  · intro s cs h1 h2 h3
    unfold snippetMatch phone_patterns
    simp only [String.toList] at h1 h2 h3
    simp [List.findSome?, h1, h2, h3]
  · intro s h1 h2 h3
    unfold snippetMatch phone_patterns
    simp only [String.toList] at h1 h2 h3
    simp [List.findSome?, h1, h2, h3]
  · intro r os herr hkg hloc horg hnone
    unfold extract_from_results organicPhone
    rw [hkg, hloc, horg]
    simp [findSnippetPhone_eq_none _ hnone]

/-- Witness for C4: first snippet wins over a later matching snippet, a
later snippet is consulted when the first has no match, and the no-match
response yields the not-found marker. -/
theorem organic_scan_first_snippet_first_pattern_witness :
    findSnippetPhone
      [⟨some "お問い合わせは0312345678まで"⟩, ⟨some "TEL: 03-0000-0000"⟩]
      = some "0312345678" ∧
    snippetMatch "TEL: 03-1234-5678 です" = some "03-1234-5678" ∧
    extract_from_results
      ⟨none, none, none, some [⟨some "営業中"⟩, ⟨some "定休日"⟩]⟩
      = "見つかりませんでした" :=
  ⟨organic_scan_first_snippet_first_pattern.1
      ⟨some "お問い合わせは0312345678まで"⟩ [⟨some "TEL: 03-0000-0000"⟩]
      "0312345678" rfl,
   organic_scan_first_snippet_first_pattern.2.2.2.1
      "TEL: 03-1234-5678 です" "03-1234-5678".toList rfl,
   organic_scan_first_snippet_first_pattern.2.2.2.2.2.2.2.1
      ⟨none, none, none, some [⟨some "営業中"⟩, ⟨some "定休日"⟩]⟩
      [⟨some "営業中"⟩, ⟨some "定休日"⟩]
      rfl rfl rfl rfl (by decide)⟩

/-! ## Row processing -/

/-- C10 (code bug): the skip-if-present semantics fails when the workbook
already has a custom column-K header.  Lines 214-219 keep any K header
that is neither `店舗番号` nor an `Unnamed` placeholder, so the lookup
`row.get("店舗番号", "")` at line 233 returns its default empty string for
every row; a row whose column-K cell already holds `"0312345678"` is
nevertheless passed to the search engine, and the write-back at lines
260-264 replaces the cell with the engine's result.  With the standard
`店舗番号` header the same row is skipped and left unchanged, which is
the behaviour the claim — and the in-app help at line 338,
"K列に既にデータが入っている行はスキップされます（既存データは保持）" —
promises for every row. -/
theorem custom_k_header_overwrites_existing_phone :
    process_excel (fun _ _ => "09099999999")
      ["店舗名", "住所", "都道府県", "c4", "c5", "c6", "c7", "c8", "c9",
       "c10", "備考"]
      [[Cell.str "店舗A", Cell.str "x", Cell.str "東京都", Cell.str "",
        Cell.str "", Cell.str "", Cell.str "", Cell.str "", Cell.str "",
        Cell.str "", Cell.str "0312345678"]]
      = [(Cell.str "09099999999", true)] ∧
    Cell.str "09099999999" ≠ Cell.str "0312345678" ∧
    process_excel (fun _ _ => "09099999999")
      ["店舗名", "住所", "都道府県", "c4", "c5", "c6", "c7", "c8", "c9",
       "c10", "店舗番号"]
      [[Cell.str "店舗A", Cell.str "x", Cell.str "東京都", Cell.str "",
        Cell.str "", Cell.str "", Cell.str "", Cell.str "", Cell.str "",
        Cell.str "", Cell.str "0312345678"]]
      = [(Cell.str "0312345678", false)] := by
  refine ⟨rfl, by decide, rfl⟩

end App
